import Mathlib

/-!
Verification of the gss-client reference implementation
(src/examples/c/gss-client.c and src/examples/c/gss-misc.h) against its
natural-language specification.

The embedding models:
 - the token-transport framing (send_token / recv_token);
 - the context-establishment loop (client_establish_context), with the
   security provider (GSS-API) as an environment parameter and the loop
   run on explicit fuel, accumulating an observable trace (provider
   calls, per-iteration send/receive activity, name releases, context
   deletions);
 - the session orchestrator (call_server), with each external step an
   environment parameter and the resource effects (socket closes,
   context deletions) recorded in the result;
 - OID parsing (parse_oid) and the main-level exit-code logic.

Bytes are Nat, byte streams are List Nat, machine flag words are Nat
combined with Nat.lor (bitwise or), matching the C OM_uint32 usage on
the values that occur here (all far below 2^32, so no overflow arises).
-/

namespace GssClient

/-- GSS_C_REPLAY_FLAG from gssapi.h (RFC 2744): bit value 4. -/
def GSS_C_REPLAY_FLAG : Nat := 4

/-- GSS_C_MUTUAL_FLAG from gssapi.h: bit value 2. -/
def GSS_C_MUTUAL_FLAG : Nat := 2

/-- GSS_C_DELEG_FLAG from gssapi.h: bit value 1. -/
def GSS_C_DELEG_FLAG : Nat := 1

/-! ## Token transport (gss-misc layer)

The repository ships only the declarations of send_token and recv_token
(src/examples/c/gss-misc.h); the implementation file gss-misc.c is not
under src/.  The definitions below are therefore modelled from the spec
(section 4.1 Token Transport). -/

/-- Transport-layer errors, from the spec taxonomy
TransportError\x7bIo, Oversized\x7d. -/
inductive TransportError where
  | ioError : TransportError
  | oversized : TransportError
deriving DecidableEq, Repr

/-- Big-endian 4-byte encoding of a length word (values taken mod 2^32 by
the byte extraction itself for in-range inputs). -/
def be32 (n : Nat) : List Nat :=
  [n / 2 ^ 24 % 256, n / 2 ^ 16 % 256, n / 2 ^ 8 % 256, n % 256]

/-- Big-endian decoding of 4 bytes into a length word. -/
def decodeBE32 (b0 b1 b2 b3 : Nat) : Nat :=
  ((b0 * 256 + b1) * 256 + b2) * 256 + b3

/-- Modelled from the spec: send_token is implemented in gss-misc.c which is
not under src/ (src/examples/c/gss-misc.h only declares it).  Per spec 4.1,
it writes a 4-byte big-endian length prefix of the token length followed by
the raw token bytes.  The model returns the bytes put on the wire. -/
def send_token (tok : List Nat) : List Nat :=
  be32 tok.length ++ tok

/-- Modelled from the spec: recv_token is implemented in gss-misc.c which is
not under src/ (src/examples/c/gss-misc.h only declares it).  Per spec 4.1,
it reads exactly 4 bytes as a big-endian length, rejects lengths that exceed
the configured upper bound with Oversized before reading or allocating that
many bytes, then reads exactly that many bytes; a short read is an Io error.
The model consumes a byte stream and returns the token and the unread rest
of the stream. -/
def recv_token (bound : Nat) (s : List Nat) : Except TransportError (List Nat × List Nat) :=
  match s with
  | b0 :: b1 :: b2 :: b3 :: rest =>
    let len := decodeBE32 b0 b1 b2 b3
    if bound < len then .error .oversized
    else if rest.length < len then .error .ioError
    else .ok (rest.take len, rest.drop len)
  | _ => .error .ioError

/-! ## Security context negotiator (client_establish_context)

Embeds the loop of src/examples/c/gss-client.c lines 123-223.  The GSS-API
provider and the transport are an environment: the provider's
gss_init_sec_context behaviour is a function of the round number and the
inbound token, and the transport's per-round success is given by the
environment.  The loop runs on fuel (the C loop is unbounded); besides the
C-visible results the state carries an observable trace: every provider
call with the arguments the C code passes, a per-iteration log of what was
sent and received, the number of gss_release_name calls, and every
gss_delete_sec_context call with the context argument at that moment. -/

/-- Major status of gss_init_sec_context as the C code distinguishes it:
GSS_S_COMPLETE, GSS_S_CONTINUE_NEEDED, or any other (error) status. -/
inductive InitStatus where
  | complete : InitStatus
  | continueNeeded : InitStatus
  | failure : Nat → InitStatus
deriving DecidableEq, Repr

/-- One provider response to gss_init_sec_context: the major status, the
outbound token written into send_tok, and the value of *gss_context after
the call (none models GSS_C_NO_CONTEXT). -/
structure InitOutcome where
  status : InitStatus
  outToken : List Nat
  ctxAfter : Option Nat
deriving DecidableEq, Repr

/-- Environment of client_establish_context: whether gss_import_name
succeeds, the provider behaviour per round and inbound token, and the
transport outcomes per round (sendOk n is the success of send_token in
round n; recvTok n is the token recv_token yields in round n, none
modelling a transport failure). -/
structure EstEnv where
  importOk : Bool
  init : Nat → Option (List Nat) → InitOutcome
  sendOk : Nat → Bool
  recvTok : Nat → Option (List Nat)

/-- The arguments the C code passes to one gss_init_sec_context call:
the current *gss_context, the flags word, and token_ptr. -/
structure ProviderCall where
  ctxArg : Option Nat
  flagsArg : Nat
  inTokArg : Option (List Nat)
deriving DecidableEq, Repr

/-- Observable log of one loop iteration: the outbound token the provider
produced, its status, whether send_token was invoked, and whether
recv_token was invoked. -/
structure IterLog where
  outTok : List Nat
  status : InitStatus
  sent : Bool
  received : Bool
deriving DecidableEq, Repr

/-- Loop state of client_establish_context: the C-visible variables
(round counter for the environment, *gss_context, token_ptr) and the
observable trace. -/
structure EstState where
  round : Nat
  ctx : Option Nat
  tokenPtr : Option (List Nat)
  nameReleases : Nat
  calls : List ProviderCall
  iters : List IterLog
  deleteCtxCalls : List (Option Nat)
deriving DecidableEq, Repr

/-- Return value of client_establish_context: 0 (success) or -1 (failure). -/
inductive EstOutcome where
  | success : EstOutcome
  | failureRet : EstOutcome
deriving DecidableEq, Repr

/-- The do-while loop of client_establish_context (gss-client.c lines
170-219), on fuel.  Result none means fuel ran out with the loop still
going (the C code would keep looping).  Mirrors the C statement order:
init_sec_context; release recv buffer; send if the outbound token is
non-empty (send failure releases the name and returns -1); on an error
status release the name and, exactly when *gss_context ==
GSS_C_NO_CONTEXT, call gss_delete_sec_context, then return -1; on
GSS_S_CONTINUE_NEEDED receive the next token (receive failure releases
the name and returns -1); loop while the status is continue-needed; on
exit release the name and return 0. -/
def estLoop (env : EstEnv) (reqFlags : Nat) : Nat → EstState → Option EstOutcome × EstState
  | 0, st => (none, st)
  | fuel + 1, st =>
    let out := env.init st.round st.tokenPtr
    let call : ProviderCall :=
      { ctxArg := st.ctx, flagsArg := reqFlags ||| GSS_C_REPLAY_FLAG, inTokArg := st.tokenPtr }
    let sendNeeded := !out.outToken.isEmpty
    let st1 : EstState := { st with ctx := out.ctxAfter, calls := st.calls ++ [call] }
    if sendNeeded && !env.sendOk st.round then
      (some .failureRet,
        { st1 with
          iters := st1.iters ++ [⟨out.outToken, out.status, true, false⟩],
          nameReleases := st1.nameReleases + 1 })
    else
      match out.status with
      | .failure code =>
        (some .failureRet,
          { st1 with
            iters := st1.iters ++ [⟨out.outToken, .failure code, sendNeeded, false⟩],
            nameReleases := st1.nameReleases + 1,
            deleteCtxCalls :=
              if st1.ctx = none then st1.deleteCtxCalls ++ [st1.ctx]
              else st1.deleteCtxCalls })
      | .continueNeeded =>
        match env.recvTok st.round with
        | none =>
          (some .failureRet,
            { st1 with
              iters := st1.iters ++ [⟨out.outToken, .continueNeeded, sendNeeded, true⟩],
              nameReleases := st1.nameReleases + 1 })
        | some t =>
          estLoop env reqFlags fuel
            { st1 with
              iters := st1.iters ++ [⟨out.outToken, .continueNeeded, sendNeeded, true⟩],
              tokenPtr := some t,
              round := st1.round + 1 }
      | .complete =>
        (some .success,
          { st1 with
            iters := st1.iters ++ [⟨out.outToken, .complete, sendNeeded, false⟩],
            nameReleases := st1.nameReleases + 1 })

/-- State at entry to the loop (gss-client.c lines 167-168):
token_ptr = GSS_C_NO_BUFFER, *gss_context = GSS_C_NO_CONTEXT,
empty trace. -/
def estStart : EstState :=
  { round := 0, ctx := none, tokenPtr := none, nameReleases := 0,
    calls := [], iters := [], deleteCtxCalls := [] }

/-- client_establish_context (gss-client.c lines 123-223): import the
target name (on failure return -1 before the loop, with no name to
release), then run the establishment loop. -/
def client_establish_context (env : EstEnv) (reqFlags : Nat) (fuel : Nat) :
    Option EstOutcome × EstState :=
  if env.importOk then estLoop env reqFlags fuel estStart
  else (some .failureRet, estStart)

/-! ## Session orchestrator (call_server)

Embeds src/examples/c/gss-client.c lines 290-476.  Every external step
(connect, context establishment, the context-inquiry and display calls,
gss_wrap, transport send and receive, gss_verify_mic,
gss_delete_sec_context) is an outcome drawn from the environment; the
result records the return value together with the resource effects the
claims are about: how many times close(s) ran, how many times
gss_delete_sec_context ran, whether the not-encrypted warning was
printed, whether the protected token was handed to send_token, and
whether execution reached the gss_wrap step. -/

/-- Environment of call_server: the outcome of each external call in the
order the C code makes them.  est is none when client_establish_context
returns -1 and some retFlags on success; wrapRes is none when gss_wrap
fails and some confState on success, confState being the conf_state
output ("state" in the C code); mechNameOids gives the per-element
success of the gss_oid_to_str calls in the mechanism-names loop. -/
structure SrvEnv where
  connectOk : Bool
  est : Option Nat
  inquireOk : Bool
  displaySrcOk : Bool
  displayTargOk : Bool
  nameTypeOidOk : Bool
  inquireMechNamesOk : Bool
  mechOidOk : Bool
  mechNameOids : List Bool
  wrapRes : Option Bool
  sendOk : Bool
  recvOk : Bool
  verifyOk : Bool
  deleteOk : Bool
deriving DecidableEq, Repr

/-- The loop over the mechanism's names (gss-client.c lines 398-410):
each element is one gss_oid_to_str call; the first failure makes
call_server return -1, otherwise the loop completes. -/
def mechNamesLoopOk : List Bool → Bool
  | [] => true
  | ok :: rest => if ok then mechNamesLoopOk rest else false

/-- Result of call_server: return value and observable resource effects. -/
structure SrvResult where
  ret : Int
  closedCount : Nat
  ctxDeleteCount : Nat
  warned : Bool
  sentProtected : Bool
  reachedWrap : Bool
deriving DecidableEq, Repr

/-- call_server (gss-client.c lines 290-476), with each early return of
the C code a branch.  Note which failure returns perform cleanup in the
C code: the establish-context failure closes the socket (line 324) but
deletes no context; the gss_inquire_context, gss_display_name,
gss_oid_to_str, gss_inquire_names_for_mech and per-mechanism-name
gss_oid_to_str failures (lines 337-405) return -1 with no close and no
context deletion; the gss_wrap, send_token, recv_token and
gss_verify_mic failures close the socket and delete the context; a
failing final gss_delete_sec_context closes the socket and calls delete
again; the success path deletes the context and closes the socket. -/
def call_server (env : SrvEnv) : SrvResult :=
  if !env.connectOk then
    { ret := -1, closedCount := 0, ctxDeleteCount := 0, warned := false,
      sentProtected := false, reachedWrap := false }
  else if env.est.isNone then
    { ret := -1, closedCount := 1, ctxDeleteCount := 0, warned := false,
      sentProtected := false, reachedWrap := false }
  else if !env.inquireOk then
    { ret := -1, closedCount := 0, ctxDeleteCount := 0, warned := false,
      sentProtected := false, reachedWrap := false }
  else if !env.displaySrcOk then
    { ret := -1, closedCount := 0, ctxDeleteCount := 0, warned := false,
      sentProtected := false, reachedWrap := false }
  else if !env.displayTargOk then
    { ret := -1, closedCount := 0, ctxDeleteCount := 0, warned := false,
      sentProtected := false, reachedWrap := false }
  else if !env.nameTypeOidOk then
    { ret := -1, closedCount := 0, ctxDeleteCount := 0, warned := false,
      sentProtected := false, reachedWrap := false }
  else if !env.inquireMechNamesOk then
    { ret := -1, closedCount := 0, ctxDeleteCount := 0, warned := false,
      sentProtected := false, reachedWrap := false }
  else if !env.mechOidOk then
    { ret := -1, closedCount := 0, ctxDeleteCount := 0, warned := false,
      sentProtected := false, reachedWrap := false }
  else if !(mechNamesLoopOk env.mechNameOids) then
    { ret := -1, closedCount := 0, ctxDeleteCount := 0, warned := false,
      sentProtected := false, reachedWrap := false }
  else
    match env.wrapRes with
    | none =>
      { ret := -1, closedCount := 1, ctxDeleteCount := 1, warned := false,
        sentProtected := false, reachedWrap := true }
    | some confState =>
      let warned := !confState
      if !env.sendOk then
        { ret := -1, closedCount := 1, ctxDeleteCount := 1, warned := warned,
          sentProtected := true, reachedWrap := true }
      else if !env.recvOk then
        { ret := -1, closedCount := 1, ctxDeleteCount := 1, warned := warned,
          sentProtected := true, reachedWrap := true }
      else if !env.verifyOk then
        { ret := -1, closedCount := 1, ctxDeleteCount := 1, warned := warned,
          sentProtected := true, reachedWrap := true }
      else if !env.deleteOk then
        { ret := -1, closedCount := 1, ctxDeleteCount := 2, warned := warned,
          sentProtected := true, reachedWrap := true }
      else
        { ret := 0, closedCount := 1, ctxDeleteCount := 1, warned := warned,
          sentProtected := true, reachedWrap := true }

/-! ## OID parsing (parse_oid) and the main-level exit code -/

/-- Environment of parse_oid: the behaviour of gss_str_to_oid (none
models a non-GSS_S_COMPLETE status, in which case the C code does not
touch the oid output) and whether the malloc of the scratch string
succeeds. -/
structure OidEnv where
  strToOid : String → Option Nat
  allocOk : Bool

/-- The scratch string parse_oid builds for a mechanism argument that
starts with a digit (gss-client.c lines 485-494): the argument wrapped
in braces with every dot turned into a space. -/
def oidTokenString (mech : String) : String :=
  "\x7b " ++ String.map (fun c => if c = '.' then ' ' else c) mech ++ " \x7d"

/-- parse_oid (gss-client.c lines 478-505).  oid is the caller's *oid on
entry; the result is *oid on return.  If the mechanism starts with a
digit the braced scratch string is built first (a malloc failure prints
and returns with oid untouched); gss_str_to_oid failure prints a status
and returns with oid untouched; success stores the parsed OID. -/
def parse_oid (env : OidEnv) (mech : String) (oid : Option Nat) : Option Nat :=
  if mech.front.isDigit then
    if env.allocOk then
      match env.strToOid (oidTokenString mech) with
      | none => oid
      | some o => some o
    else oid
  else
    match env.strToOid mech with
    | none => oid
    | some o => some o

/-- The tail of main (gss-client.c lines 551-561): run parse_oid when a
-mech argument is present (starting from oid = GSS_C_NULL_OID, modelled
as none), call the server, exit 1 when call_server returns a negative
value and 0 otherwise.  Returns the exit code together with the oid
value passed to call_server. -/
def mainRun (oenv : OidEnv) (mechanism : Option String) (senv : SrvEnv) :
    Nat × Option Nat :=
  let oid : Option Nat :=
    match mechanism with
    | none => none
    | some m => parse_oid oenv m none
  (if (call_server senv).ret < 0 then 1 else 0, oid)

/-! ## Concrete scenario environments used by counterexamples and
witnesses -/

/-- A provider that answers every round with ContinueNeeded and a
non-empty outbound token, over a transport that never fails. -/
def contEnv : EstEnv :=
  { importOk := true,
    init := fun _ _ => ⟨.continueNeeded, [1], some 1⟩,
    sendOk := fun _ => true,
    recvTok := fun _ => some [2] }

/-- A provider whose first init call fails with status 9 after having
created a context (models gss_init_sec_context writing a partial context
into *gss_context and returning an error). -/
def failWithCtxEnv : EstEnv :=
  { importOk := true,
    init := fun _ _ => ⟨.failure 9, [], some 5⟩,
    sendOk := fun _ => true,
    recvTok := fun _ => some [] }

/-- A provider whose first init call fails with status 9 leaving
*gss_context as GSS_C_NO_CONTEXT. -/
def failNoCtxEnv : EstEnv :=
  { importOk := true,
    init := fun _ _ => ⟨.failure 9, [], none⟩,
    sendOk := fun _ => true,
    recvTok := fun _ => some [] }

/-- A provider that completes on the first round with a final token. -/
def oneRoundEnv : EstEnv :=
  { importOk := true,
    init := fun _ _ => ⟨.complete, [1], some 3⟩,
    sendOk := fun _ => true,
    recvTok := fun _ => some [] }

/-- A provider that needs two rounds: round 0 returns ContinueNeeded
with a token to send, round 1 completes with a final token. -/
def twoRoundEnv : EstEnv :=
  { importOk := true,
    init := fun n _ =>
      if n = 0 then ⟨.continueNeeded, [1], some 1⟩ else ⟨.complete, [2], some 1⟩,
    sendOk := fun _ => true,
    recvTok := fun _ => some [9] }

/-- An orchestrator environment in which connect and context
establishment succeed and gss_inquire_context then fails. -/
def inquireFailEnv : SrvEnv :=
  { connectOk := true, est := some 0, inquireOk := false, displaySrcOk := true,
    displayTargOk := true, nameTypeOidOk := true, inquireMechNamesOk := true,
    mechOidOk := true, mechNameOids := [], wrapRes := some true, sendOk := true,
    recvOk := true, verifyOk := true, deleteOk := true }

/-- An orchestrator environment in which every step succeeds. -/
def allOkEnv : SrvEnv :=
  { connectOk := true, est := some 0, inquireOk := true, displaySrcOk := true,
    displayTargOk := true, nameTypeOidOk := true, inquireMechNamesOk := true,
    mechOidOk := true, mechNameOids := [true], wrapRes := some true, sendOk := true,
    recvOk := true, verifyOk := true, deleteOk := true }

/-- An orchestrator environment in which every step succeeds but
gss_wrap reports that no confidentiality was applied. -/
def wrapPlainEnv : SrvEnv :=
  { allOkEnv with wrapRes := some false }

/-- A gss_str_to_oid behaviour that rejects every string. -/
def rejectAllOidEnv : OidEnv :=
  { strToOid := fun _ => none, allocOk := true }

theorem be32_length (n : Nat) : (be32 n).length = 4 := rfl

theorem decodeBE32_be32 (n : Nat) (h : n < 2 ^ 32) :
    decodeBE32 (n / 2 ^ 24 % 256) (n / 2 ^ 16 % 256) (n / 2 ^ 8 % 256) (n % 256) = n := by
  unfold decodeBE32
  omega

/-- Claim C5: for every declared length field read by recv_token, if the
length exceeds the configured upper bound then recv_token fails with
Oversized — for every remainder of the stream, in particular one holding
fewer than that many bytes, showing the payload is not read — and
otherwise (length within the bound and available) it reads exactly that
many bytes and returns them, namely the first len bytes after the
prefix. -/
theorem recv_token_length_check (bound len : Nat) (rest : List Nat)
    (hlen : len < 2 ^ 32) :
    (bound < len → recv_token bound (be32 len ++ rest) = .error .oversized)
    ∧ (len ≤ bound → len ≤ rest.length →
        recv_token bound (be32 len ++ rest) = .ok (rest.take len, rest.drop len)
        ∧ (rest.take len).length = len) := by
  have hdec := decodeBE32_be32 len hlen
  norm_num at hdec
  constructor
  · intro h
    simp [recv_token, be32, hdec, h]
  · intro h1 h2
    refine ⟨?_, by simpa using h2⟩
    simp [recv_token, be32, hdec, Nat.not_lt.mpr h1, Nat.not_lt.mpr h2]

/-- Witness for C5 at concrete inputs: declared length 3 against bound 2
is rejected as Oversized even though only 2 payload bytes follow, and
declared length 3 against bound 5 reads exactly the 3 bytes. -/
theorem recv_token_length_check_witness :
    recv_token 2 (be32 3 ++ [7, 8]) = .error .oversized
    ∧ recv_token 5 (be32 3 ++ [7, 8, 9, 10]) = .ok ([7, 8, 9], [10]) := by
  constructor
  · exact (recv_token_length_check 2 3 [7, 8] (by decide)).1 (by decide)
  · have h := ((recv_token_length_check 5 3 [7, 8, 9, 10] (by decide)).2
      (by decide) (by decide)).1
    simpa using h

/-- Claim C6: framing round-trip — for every byte sequence b whose
length is within the transport bound (and expressible in the 4-byte
prefix), reading the stream produced by send_token b reconstructs b
exactly, leaving any following bytes unread. -/
theorem send_recv_roundtrip (bound : Nat) (b rest : List Nat)
    (hb : b.length ≤ bound) (h32 : b.length < 2 ^ 32) :
    recv_token bound (send_token b ++ rest) = .ok (b, rest) := by
  have hdec := decodeBE32_be32 b.length h32
  norm_num at hdec
  have hnb : ¬ bound < b.length := Nat.not_lt.mpr hb
  have hnr : ¬ (b ++ rest).length < b.length := by
    simp [List.length_append]
  simp [send_token, recv_token, be32, List.append_assoc, hdec, hnb, hnr,
    List.take_left, List.drop_left]

/-- Witness for C6 at a concrete input: the token [5, 6, 7] with bound 16
and a trailing byte round-trips exactly. -/
theorem send_recv_roundtrip_witness :
    recv_token 16 (send_token [5, 6, 7] ++ [9]) = .ok ([5, 6, 7], [9]) :=
  send_recv_roundtrip 16 [5, 6, 7] [9] (by decide) (by decide)

/-! ## Negotiation termination (C2) -/

/-- If the provider returns GSS_S_CONTINUE_NEEDED at every round and the
transport never fails, the establishment loop recurses at every fuel
step: no amount of fuel produces a result. -/
theorem estLoop_continue_forever (env : EstEnv) (req : Nat)
    (hc : ∀ n t, (env.init n t).status = .continueNeeded)
    (hs : ∀ n, env.sendOk n = true)
    (hr : ∀ n, (env.recvTok n).isSome) :
    ∀ fuel st, (estLoop env req fuel st).1 = none := by
  intro fuel
  induction fuel with
  | zero => intro st; rfl
  | succ n ih =>
    intro st
    have hs' := hs st.round
    have hrs := hr st.round
    cases hrt : env.recvTok st.round with
    | none =>
      rw [hrt] at hrs
      simp at hrs
    | some t =>
      rcases hout : env.init st.round st.tokenPtr with ⟨status, outTok, ctxAfter⟩
      have hc' := hc st.round st.tokenPtr
      rw [hout] at hc'
      cases status with
      | complete => simp at hc'
      | failure code => simp at hc'
      | continueNeeded =>
        simp only [estLoop, hout, hs', hrt, Bool.not_true, Bool.and_false,
          Bool.false_eq_true, if_false]
        exact ih _

/-- Under an always-ContinueNeeded provider with working transport, the
loop makes exactly one provider call per unit of fuel. -/
theorem estLoop_calls_length_continue (env : EstEnv) (req : Nat)
    (hc : ∀ n t, (env.init n t).status = .continueNeeded)
    (hs : ∀ n, env.sendOk n = true)
    (hr : ∀ n, (env.recvTok n).isSome) :
    ∀ fuel st, (estLoop env req fuel st).2.calls.length = st.calls.length + fuel := by
  intro fuel
  induction fuel with
  | zero => intro st; rfl
  | succ n ih =>
    intro st
    have hs' := hs st.round
    have hrs := hr st.round
    cases hrt : env.recvTok st.round with
    | none =>
      rw [hrt] at hrs
      simp at hrs
    | some t =>
      rcases hout : env.init st.round st.tokenPtr with ⟨status, outTok, ctxAfter⟩
      have hc' := hc st.round st.tokenPtr
      rw [hout] at hc'
      cases status with
      | complete => simp at hc'
      | failure code => simp at hc'
      | continueNeeded =>
        simp only [estLoop, hout, hs', hrt, Bool.not_true, Bool.and_false,
          Bool.false_eq_true, if_false]
        rw [ih]
        simp
        omega

/-- Counterexample to C2: against the always-ContinueNeeded provider the
loop is still running after 101 rounds (fuel 101 yields no outcome, and
101 provider calls were made), so the number of rounds is not bounded by
100 and no TooManyRounds failure is produced — the code has no round
bound and no such error at all. -/
theorem establish_rounds_unbounded_cex :
    (client_establish_context contEnv 0 101).1 = none
    ∧ (client_establish_context contEnv 0 101).2.calls.length = 101 := by
  constructor
  · have h1 := estLoop_continue_forever contEnv 0 (fun _ _ => rfl) (fun _ => rfl)
      (fun _ => rfl) 101 estStart
    unfold client_establish_context
    simpa [show contEnv.importOk = true from rfl] using h1
  · have h2 := estLoop_calls_length_continue contEnv 0 (fun _ _ => rfl) (fun _ => rfl)
      (fun _ => rfl) 101 estStart
    unfold client_establish_context
    rw [if_pos (show contEnv.importOk = true from rfl)]
    exact h2.trans (by norm_num [estStart])

/-- Claim C2 (amended): the context-establishment loop has no
implementation round bound — whenever the name import succeeds, the
provider returns ContinueNeeded at every round and the transport never
fails, the loop never terminates: for every fuel allowance it has
produced no outcome, and in particular it never fails with a
TooManyRounds error (no such error exists in the code). -/
theorem establish_no_round_bound (env : EstEnv) (req fuel : Nat)
    (hi : env.importOk = true)
    (hc : ∀ n t, (env.init n t).status = .continueNeeded)
    (hs : ∀ n, env.sendOk n = true)
    (hr : ∀ n, (env.recvTok n).isSome) :
    (client_establish_context env req fuel).1 = none := by
  unfold client_establish_context
  rw [hi]
  simp only [if_true]
  exact estLoop_continue_forever env req hc hs hr fuel estStart

/-- Witness for C2 (amended) at the concrete always-continue provider
with fuel 7. -/
theorem establish_no_round_bound_witness :
    (client_establish_context contEnv 0 7).1 = none :=
  establish_no_round_bound contEnv 0 7 rfl (fun _ _ => rfl) (fun _ => rfl)
    (fun _ => rfl)

/-! ## Release of a partially-created context on failure (C3)

gss-client.c line 204 guards the gss_delete_sec_context call with
`*gss_context == GSS_C_NO_CONTEXT`: the call runs exactly when the
context is absent, and is skipped when a partially-created context
exists. -/

/-- Claim C3 is refuted by the code as written (code bug): when the
provider fails after creating a context, client_establish_context
returns -1 with the partially-created context still live and no
gss_delete_sec_context call made; when the provider fails with no
context created, gss_delete_sec_context IS invoked on the absent
context.  The guard at gss-client.c line 204 compares with == where the
intent (per the spec and the upstream reference code) is !=. -/
theorem establish_failure_release_inverted :
    ((client_establish_context failWithCtxEnv 0 10).1 = some .failureRet
      ∧ (client_establish_context failWithCtxEnv 0 10).2.ctx = some 5
      ∧ (client_establish_context failWithCtxEnv 0 10).2.deleteCtxCalls = [])
    ∧ ((client_establish_context failNoCtxEnv 0 10).1 = some .failureRet
      ∧ (client_establish_context failNoCtxEnv 0 10).2.ctx = none
      ∧ (client_establish_context failNoCtxEnv 0 10).2.deleteCtxCalls = [none]) := by
  decide

/-! ## Release of the imported target name (C9) -/

/-- Every terminating run of the establishment loop performs exactly one
gss_release_name call beyond those already recorded: each of the four
exit paths (send failure, provider failure, receive failure, completion)
releases the name once, and loop iterations release it never. -/
theorem estLoop_nameReleases (env : EstEnv) (req : Nat) :
    ∀ fuel st r st', estLoop env req fuel st = (some r, st') →
      st'.nameReleases = st.nameReleases + 1 := by
  intro fuel
  induction fuel with
  | zero =>
    intro st r st' h
    simp [estLoop] at h
  | succ n ih =>
    intro st r st' h
    rcases hout : env.init st.round st.tokenPtr with ⟨status, outTok, ctxAfter⟩
    simp only [estLoop, hout] at h
    split at h
    · injection h with h1 h2
      subst h2
      simp
    · split at h
      · injection h with h1 h2
        subst h2
        simp
      · split at h
        · injection h with h1 h2
          subst h2
          simp
        · have := ih _ _ _ h
          simpa using this
      · injection h with h1 h2
        subst h2
        simp

/-- Claim C9: once the target name import succeeded, every exit path of
client_establish_context — send failure, provider failure, receive
failure, or success — has released the imported target name exactly once
when the function returns. -/
theorem establish_name_released_once (env : EstEnv) (req fuel : Nat)
    (r : EstOutcome) (st : EstState)
    (hi : env.importOk = true)
    (h : client_establish_context env req fuel = (some r, st)) :
    st.nameReleases = 1 := by
  unfold client_establish_context at h
  rw [hi] at h
  simp only [if_true] at h
  simpa [estStart] using estLoop_nameReleases env req fuel estStart r st h

/-- Witness for C9 at the one-round provider: the successful run has
released the name exactly once. -/
theorem establish_name_released_once_witness :
    (client_establish_context oneRoundEnv 0 5).2.nameReleases = 1 :=
  establish_name_released_once oneRoundEnv 0 5 .success _ rfl (by decide)

/-! ## Per-iteration send/receive discipline (C4) -/

theorem dropLast_append_single {α : Type} (l : List α) (a : α) :
    (l ++ [a]).dropLast = l := by
  simp

/-- Invariant propagation through the establishment loop: provided
send_token never fails, every iteration log of a terminating run
satisfies "sent iff the outbound token was non-empty" and "recv_token
invoked iff the status was ContinueNeeded", and every iteration except
possibly the last carried status ContinueNeeded. -/
theorem estLoop_iters_inv (env : EstEnv) (req : Nat)
    (hs : ∀ n, env.sendOk n = true) :
    ∀ fuel st r st', estLoop env req fuel st = (some r, st') →
      (∀ log ∈ st.iters,
          ((log.sent = true ↔ log.outTok ≠ [])
            ∧ (log.received = true ↔ log.status = .continueNeeded))
          ∧ log.status = .continueNeeded) →
      (∀ log ∈ st'.iters,
          (log.sent = true ↔ log.outTok ≠ [])
          ∧ (log.received = true ↔ log.status = .continueNeeded))
      ∧ (∀ log ∈ st'.iters.dropLast, log.status = .continueNeeded) := by
  intro fuel
  induction fuel with
  | zero =>
    intro st r st' h hinv
    simp [estLoop] at h
  | succ n ih =>
    intro st r st' h hinv
    rcases hout : env.init st.round st.tokenPtr with ⟨status, outTok, ctxAfter⟩
    simp only [estLoop, hout] at h
    split at h
    · rename_i hcond
      rw [hs st.round] at hcond
      simp at hcond
    · split at h
      · injection h with h1 h2
        subst h2
        refine ⟨?_, ?_⟩
        · intro log hlog
          simp only [List.mem_append, List.mem_singleton] at hlog
          rcases hlog with hlog | rfl
          · exact (hinv log (by simpa using hlog)).1
          · refine ⟨?_, by simp⟩
            cases outTok <;> simp
        · intro log hlog
          simp only [dropLast_append_single] at hlog
          exact (hinv log (by simpa using hlog)).2
      · split at h
        · injection h with h1 h2
          subst h2
          refine ⟨?_, ?_⟩
          · intro log hlog
            simp only [List.mem_append, List.mem_singleton] at hlog
            rcases hlog with hlog | rfl
            · exact (hinv log (by simpa using hlog)).1
            · refine ⟨?_, by simp⟩
              cases outTok <;> simp
          · intro log hlog
            simp only [dropLast_append_single] at hlog
            exact (hinv log (by simpa using hlog)).2
        · refine ih _ _ _ h ?_
          intro log hlog
          simp only [List.mem_append, List.mem_singleton] at hlog
          rcases hlog with hlog | rfl
          · exact hinv log (by simpa using hlog)
          · refine ⟨⟨?_, by simp⟩, rfl⟩
            cases outTok <;> simp
      · injection h with h1 h2
        subst h2
        refine ⟨?_, ?_⟩
        · intro log hlog
          simp only [List.mem_append, List.mem_singleton] at hlog
          rcases hlog with hlog | rfl
          · exact (hinv log (by simpa using hlog)).1
          · refine ⟨?_, by simp⟩
            cases outTok <;> simp
        · intro log hlog
          simp only [dropLast_append_single] at hlog
          exact (hinv log (by simpa using hlog)).2

/-- Claim C4: in every iteration of a terminating negotiation run whose
sends succeed, send_token is invoked if and only if the outbound token
has non-zero length, and recv_token is invoked if and only if the
provider returned ContinueNeeded; moreover every iteration except the
final one carried ContinueNeeded, so after the provider returns Complete
no further receive occurs. -/
theorem establish_send_recv_iff (env : EstEnv) (req fuel : Nat)
    (r : EstOutcome) (st : EstState)
    (hs : ∀ n, env.sendOk n = true)
    (h : client_establish_context env req fuel = (some r, st)) :
    (∀ log ∈ st.iters,
        (log.sent = true ↔ log.outTok ≠ [])
        ∧ (log.received = true ↔ log.status = .continueNeeded))
    ∧ (∀ log ∈ st.iters.dropLast, log.status = .continueNeeded) := by
  unfold client_establish_context at h
  cases him : env.importOk with
  | false =>
    rw [him] at h
    simp only [Bool.false_eq_true, if_false] at h
    injection h with h1 h2
    subst h2
    simp [estStart]
  | true =>
    rw [him] at h
    simp only [if_true] at h
    exact estLoop_iters_inv env req hs fuel estStart r st h
      (by intro log hlog; simp [estStart] at hlog)

/-- Witness for C4 at the two-round provider. -/
theorem establish_send_recv_iff_witness :
    (∀ log ∈ (client_establish_context twoRoundEnv 0 5).2.iters,
        (log.sent = true ↔ log.outTok ≠ [])
        ∧ (log.received = true ↔ log.status = .continueNeeded))
    ∧ (∀ log ∈ (client_establish_context twoRoundEnv 0 5).2.iters.dropLast,
        log.status = .continueNeeded) :=
  establish_send_recv_iff twoRoundEnv 0 5 .success _ (fun _ => rfl) (by decide)

/-! ## Provider call arguments (C7) -/

/-- Invariant propagation for the provider-call trace: if all calls so
far carried the flags word req ||| GSS_C_REPLAY_FLAG and either no call
was made yet (with context and inbound token still absent) or the first
recorded call had absent context and token arguments, then after running
the loop every call carries that flags word and the first call had
absent context and inbound-token arguments. -/
theorem estLoop_calls_inv (env : EstEnv) (req : Nat) :
    ∀ fuel st,
      (∀ c ∈ st.calls, c.flagsArg = req ||| GSS_C_REPLAY_FLAG) →
      ((st.calls = [] ∧ st.ctx = none ∧ st.tokenPtr = none)
        ∨ (st.calls ≠ [] ∧ ∀ c, st.calls.head? = some c →
            c.ctxArg = none ∧ c.inTokArg = none)) →
      (∀ c ∈ (estLoop env req fuel st).2.calls,
          c.flagsArg = req ||| GSS_C_REPLAY_FLAG)
      ∧ (∀ c, (estLoop env req fuel st).2.calls.head? = some c →
          c.ctxArg = none ∧ c.inTokArg = none) := by
  intro fuel
  induction fuel with
  | zero =>
    intro st hflags hfirst
    refine ⟨by simpa [estLoop] using hflags, ?_⟩
    rcases hfirst with ⟨hnil, _, _⟩ | ⟨_, hfc⟩
    · simp [estLoop, hnil]
    · simpa [estLoop] using hfc
  | succ n ih =>
    intro st hflags hfirst
    rcases hout : env.init st.round st.tokenPtr with ⟨status, outTok, ctxAfter⟩
    have hA : ∀ c ∈ st.calls ++
        [(⟨st.ctx, req ||| GSS_C_REPLAY_FLAG, st.tokenPtr⟩ : ProviderCall)],
        c.flagsArg = req ||| GSS_C_REPLAY_FLAG := by
      intro c hc
      rcases List.mem_append.mp hc with hc | hc
      · exact hflags c hc
      · simp at hc
        subst hc
        rfl
    have hB : ∀ c, (st.calls ++
        [(⟨st.ctx, req ||| GSS_C_REPLAY_FLAG, st.tokenPtr⟩ : ProviderCall)]).head? =
          some c → c.ctxArg = none ∧ c.inTokArg = none := by
      rcases hfirst with ⟨hnil, hctx, htok⟩ | ⟨hne, hfc⟩
      · intro c hc
        rw [hnil] at hc
        simp at hc
        subst hc
        exact ⟨hctx, htok⟩
      · intro c hc
        rcases hcl : st.calls with _ | ⟨a, l⟩
        · exact absurd hcl hne
        · rw [hcl] at hc
          simp at hc
          subst hc
          exact hfc _ (by rw [hcl]; rfl)
    simp only [estLoop, hout]
    split
    · exact ⟨fun c hc => hA c (by simpa using hc),
        fun c hc => hB c (by simpa using hc)⟩
    · split
      · exact ⟨fun c hc => hA c (by simpa using hc),
          fun c hc => hB c (by simpa using hc)⟩
      · split
        · exact ⟨fun c hc => hA c (by simpa using hc),
            fun c hc => hB c (by simpa using hc)⟩
        · refine ih _ (fun c hc => hA c (by simpa using hc)) (Or.inr ⟨by simp, ?_⟩)
          exact fun c hc => hB c (by simpa using hc)
      · exact ⟨fun c hc => hA c (by simpa using hc),
          fun c hc => hB c (by simpa using hc)⟩

/-- Claim C7: every gss_init_sec_context call of the establishment loop
passes exactly the caller's requested flags bitwise-ORed with
GSS_C_REPLAY_FLAG, and the first call passes an absent context
(GSS_C_NO_CONTEXT) and an absent inbound token (GSS_C_NO_BUFFER). -/
theorem establish_provider_call_args (env : EstEnv) (req fuel : Nat) :
    (∀ c ∈ (client_establish_context env req fuel).2.calls,
        c.flagsArg = req ||| GSS_C_REPLAY_FLAG)
    ∧ (∀ c, (client_establish_context env req fuel).2.calls.head? = some c →
        c.ctxArg = none ∧ c.inTokArg = none) := by
  unfold client_establish_context
  cases him : env.importOk with
  | false => simp [estStart]
  | true =>
    simp only [if_true]
    exact estLoop_calls_inv env req fuel estStart (by simp [estStart])
      (Or.inl ⟨rfl, rfl, rfl⟩)

/-- Witness for C7 at the two-round provider with requested flags 2
(GSS_C_MUTUAL_FLAG): every recorded call used flags 2 ||| 4 and the
first call had absent context and token. -/
theorem establish_provider_call_args_witness :
    (∀ c ∈ (client_establish_context twoRoundEnv 2 5).2.calls,
        c.flagsArg = 2 ||| GSS_C_REPLAY_FLAG)
    ∧ (∀ c, (client_establish_context twoRoundEnv 2 5).2.calls.head? = some c →
        c.ctxArg = none ∧ c.inTokArg = none) :=
  establish_provider_call_args twoRoundEnv 2 5

/-! ## Orchestrator cleanup (C1) and the confidentiality warning (C8) -/

/-- Counterexample to C1: an execution of call_server that reaches and
passes the Negotiating state (connect succeeded and
client_establish_context returned an established context) and then fails
at gss_inquire_context returns -1 without ever calling close on the
socket and without ever calling gss_delete_sec_context: the context is
not released and the transport is not closed on this exit path. -/
theorem call_server_cleanup_cex :
    inquireFailEnv.connectOk = true
    ∧ inquireFailEnv.est.isSome = true
    ∧ (call_server inquireFailEnv).ret = -1
    ∧ (call_server inquireFailEnv).closedCount = 0
    ∧ (call_server inquireFailEnv).ctxDeleteCount = 0 := by
  decide

/-- Claim C1 (amended): on every exit path at or after the
message-protection step — gss_wrap failure, send failure, receive
failure, verification failure, final-delete failure, or success — the
security context is released and the transport connection is closed
before call_server returns.  (The exit paths of the intermediate
context-inquiry/display phase do not close the connection or release the
context, and a negotiation failure closes the connection only.) -/
theorem call_server_cleanup_after_wrap (env : SrvEnv)
    (h : (call_server env).reachedWrap = true) :
    1 ≤ (call_server env).closedCount ∧ 1 ≤ (call_server env).ctxDeleteCount := by
  unfold call_server at h ⊢
  cases h1 : env.connectOk <;> simp [h1] at h ⊢
  cases h2 : env.est <;> simp [h2] at h ⊢
  cases h3 : env.inquireOk <;> simp [h3] at h ⊢
  cases h4 : env.displaySrcOk <;> simp [h4] at h ⊢
  cases h5 : env.displayTargOk <;> simp [h5] at h ⊢
  cases h6 : env.nameTypeOidOk <;> simp [h6] at h ⊢
  cases h7 : env.inquireMechNamesOk <;> simp [h7] at h ⊢
  cases h8 : env.mechOidOk <;> simp [h8] at h ⊢
  cases h9 : mechNamesLoopOk env.mechNameOids <;> simp [h9] at h ⊢
  cases h10 : env.wrapRes <;> simp [h10]
  cases h11 : env.sendOk <;> simp [h11]
  cases h12 : env.recvOk <;> simp [h12]
  cases h13 : env.verifyOk <;> simp [h13]
  cases h14 : env.deleteOk <;> simp [h14]

/-- Witness for C1 (amended) at the all-successful environment. -/
theorem call_server_cleanup_after_wrap_witness :
    1 ≤ (call_server allOkEnv).closedCount
    ∧ 1 ≤ (call_server allOkEnv).ctxDeleteCount :=
  call_server_cleanup_after_wrap allOkEnv (by decide)

/-- Claim C8: when gss_wrap succeeds but reports that confidentiality
was not applied (conf_state false), the session does not fail because of
it — the return value of call_server is exactly what it would be had
conf_state been true — and on any run reaching the wrap step the
not-encrypted warning is printed and the protected token is still handed
to send_token. -/
theorem wrap_unencrypted_is_warning_only (env : SrvEnv)
    (h : env.wrapRes = some false) :
    (call_server env).ret = (call_server { env with wrapRes := some true }).ret
    ∧ ((call_server env).reachedWrap = true →
        (call_server env).warned = true ∧ (call_server env).sentProtected = true) := by
  unfold call_server
  cases h1 : env.connectOk <;> simp [h1]
  cases h2 : env.est <;> simp [h2]
  cases h3 : env.inquireOk <;> simp [h3]
  cases h4 : env.displaySrcOk <;> simp [h4]
  cases h5 : env.displayTargOk <;> simp [h5]
  cases h6 : env.nameTypeOidOk <;> simp [h6]
  cases h7 : env.inquireMechNamesOk <;> simp [h7]
  cases h8 : env.mechOidOk <;> simp [h8]
  cases h9 : mechNamesLoopOk env.mechNameOids <;> simp [h9]
  rw [h]
  cases h11 : env.sendOk <;> simp [h11]
  cases h12 : env.recvOk <;> simp [h12]
  cases h13 : env.verifyOk <;> simp [h13]
  cases h14 : env.deleteOk <;> simp [h14]

/-- Witness for C8 at the concrete environment where wrap reports
conf_state false: the run returns the same value as the conf_state-true
run, warns, and still sends the protected token. -/
theorem wrap_unencrypted_is_warning_only_witness :
    (call_server wrapPlainEnv).ret =
      (call_server { wrapPlainEnv with wrapRes := some true }).ret
    ∧ ((call_server wrapPlainEnv).reachedWrap = true →
        (call_server wrapPlainEnv).warned = true
        ∧ (call_server wrapPlainEnv).sentProtected = true) :=
  wrap_unencrypted_is_warning_only wrapPlainEnv rfl

/-! ## Mechanism-OID parse failure (C10) -/

/-- Claim C10: a -mech argument whose OID string gss_str_to_oid rejects
does not by itself terminate the process or make it exit non-zero:
parse_oid returns with the oid output unchanged (still the null/default
OID), and main behaves exactly as if no -mech argument had been given —
same exit code, determined solely by call_server, and the default
(null) mechanism OID in use. -/
theorem mech_parse_failure_uses_default (oenv : OidEnv) (m : String)
    (senv : SrvEnv)
    (h : oenv.strToOid (if m.front.isDigit then oidTokenString m else m) = none) :
    mainRun oenv (some m) senv = mainRun oenv none senv
    ∧ (mainRun oenv (some m) senv).2 = none := by
  unfold mainRun parse_oid
  by_cases hd : m.front.isDigit
  · rw [if_pos hd] at h
    cases ha : oenv.allocOk <;> simp [hd, ha, h]
  · rw [if_neg hd] at h
    simp [hd, h]

/-- Witness for C10: with a rejecting gss_str_to_oid and the mechanism
argument "1.2.840.113554.1.2.2", main behaves exactly as with no -mech
argument and passes the null OID on. -/
theorem mech_parse_failure_uses_default_witness :
    mainRun rejectAllOidEnv (some "1.2.840.113554.1.2.2") allOkEnv =
      mainRun rejectAllOidEnv none allOkEnv
    ∧ (mainRun rejectAllOidEnv (some "1.2.840.113554.1.2.2") allOkEnv).2 = none :=
  mech_parse_failure_uses_default rejectAllOidEnv "1.2.840.113554.1.2.2" allOkEnv rfl

end GssClient
